import Mathlib

/-!
Shallow embedding of pw-volume (src/main.rs): the PipeWire dump object
model, the untagged-union decoder, `is_decimal_percentage`, `parse_dump`
and the command-building part of `pw_cli`.

Conventions of the embedding:
* Rust `i64` is modelled as `Int`, `f64` as `ℚ` with exact arithmetic
  (the spec's volume math is stated over real numbers; IEEE rounding is
  outside this model, and infinities/NaN are likewise not representable,
  so the float-parsing function is split into a pure syntax check — used
  by the validator, which only asks `.is_some()` — and a finite-value
  parser returning `Option ℚ`).
* `serde_json::Value` is the inductive `Json` below; serde's untagged
  enums try their variants in declaration order, which the decoders
  mirror explicitly.
* Process spawning is modelled by returning the built `PipeWireCommand`
  (constructor `PwEffect.command`); `status` printing is modelled by
  returning the data that the two `println!` lines carry
  (`PwEffect.statusOut`).
-/

namespace PwVolume

/-- serde_json number: integer tokens and float tokens are distinct
(deserializing an `i64` from a float-token number fails). -/
inductive JNum where
  | int (n : Int)
  | float (q : ℚ)

/-- serde_json::Value. -/
inductive Json where
  | null
  | bool (b : Bool)
  | num (n : JNum)
  | str (s : String)
  | arr (elems : List Json)
  | obj (fields : List (String × Json))

/-- struct DeviceRouteProp { mute, volumeBase, channelVolumes } -/
structure DeviceRouteProp where
  mute : Bool
  volume_base : ℚ
  channel_volumes : List ℚ
  deriving DecidableEq

/-- struct DeviceRoute { index, direction, props } -/
structure DeviceRoute where
  index : Int
  direction : String
  props : DeviceRouteProp
  deriving DecidableEq

/-- struct DeviceParams { Route } -/
structure DeviceParams where
  route : List DeviceRoute
  deriving DecidableEq

/-- struct DeviceInfo { params } -/
structure DeviceInfo where
  params : DeviceParams
  deriving DecidableEq

/-- struct PipeWireInterfaceDevice { id, type, info } -/
structure PipeWireInterfaceDevice where
  id : Int
  typ : String
  info : DeviceInfo
  deriving DecidableEq

/-- struct NodeProps { card.profile.device, device.id, node.name } -/
structure NodeProps where
  card_profile_device : Int
  device_id : Int
  node_name : String
  deriving DecidableEq

/-- struct NodeEnumFormat { channels: Option<i64> } -/
structure NodeEnumFormat where
  channels : Option Int
  deriving DecidableEq

/-- struct NodePropInfoTypeVolume { default, min, max } -/
structure NodePropInfoTypeVolume where
  default : ℚ
  min : ℚ
  max : ℚ
  deriving DecidableEq

/-- struct NodePropInfoVolume { id, type } -/
structure NodePropInfoVolume where
  id : String
  typ : NodePropInfoTypeVolume
  deriving DecidableEq

/-- enum NodePropInfo (untagged): Volume | Value -/
inductive NodePropInfo where
  | volume (v : NodePropInfoVolume)
  | value (j : Json)

/-- struct NodePropVolume { volume, mute, channelVolumes } -/
structure NodePropVolume where
  volume : ℚ
  mute : Bool
  channel_volumes : List ℚ
  deriving DecidableEq

/-- enum NodeProp (untagged): Volume | Value -/
inductive NodeProp where
  | volume (v : NodePropVolume)
  | value (j : Json)

/-- struct NodeParams { EnumFormat, PropInfo, Props } -/
structure NodeParams where
  enum_format : List NodeEnumFormat
  prop_info : List NodePropInfo
  props : List NodeProp

/-- struct NodeInfo { props, params } -/
structure NodeInfo where
  props : NodeProps
  params : NodeParams

/-- struct PipeWireInterfaceNode { id, type, info } -/
structure PipeWireInterfaceNode where
  id : Int
  typ : String
  info : NodeInfo

/-- struct MetadataValueName { name } -/
structure MetadataValueName where
  name : String
  deriving DecidableEq

/-- enum MetadataValue (untagged): Name | Value -/
inductive MetadataValue where
  | name (v : MetadataValueName)
  | value (j : Json)

/-- struct Metadata { key, value } -/
structure Metadata where
  key : String
  value : MetadataValue

/-- struct PipeWireInterfaceMetadata { type, metadata } -/
structure PipeWireInterfaceMetadata where
  typ : String
  metadata : List Metadata

/-- enum PipeWireObject (untagged): Metadata | Node | Device | Value.
The last variant keeps an entry matching no known shape, opaquely. -/
inductive PipeWireObject where
  | metadata (m : PipeWireInterfaceMetadata)
  | node (n : PipeWireInterfaceNode)
  | device (d : PipeWireInterfaceDevice)
  | value (j : Json)

/-- struct CommandVolumeProps { mute, channelVolumes } -/
structure CommandVolumeProps where
  mute : Bool
  channel_volumes : List ℚ
  deriving DecidableEq

/-- struct PipeWireCommand { index, device, props } -/
structure PipeWireCommand where
  index : Int
  device : Int
  props : CommandVolumeProps
  deriving DecidableEq

/-! ## Rust float-literal parsing (`str::parse::<f32>` / `<f64>`)

Rust's `FromStr` for floats accepts: an optional sign, then either a
case-insensitive special (`inf`, `infinity`, `nan`) or a decimal number
`digits [. digits] [((e|E) [sign] digits)]` with at least one mantissa
digit (a leading or trailing dot with digits on the other side is
accepted).  `rustFloatSyntaxOk` decides membership in that grammar
(what `.parse::<f32>().ok().is_some()` observes); `parseRustFloat?`
returns the exact rational value of a finite literal and `none` on the
specials, which have no rational value. -/

/-- Split an optional leading sign: `(isNegative, rest)`. -/
def splitSign : List Char → Bool × List Char
  | '+' :: cs => (false, cs)
  | '-' :: cs => (true, cs)
  | cs => (false, cs)

/-- Longest leading run of ASCII digits, and the remainder. -/
def takeDigits : List Char → List Char × List Char
  | [] => ([], [])
  | c :: cs =>
    if c.isDigit then
      let p := takeDigits cs
      (c :: p.1, p.2)
    else ([], c :: cs)

/-- Numeric value of a digit run. -/
def digitsVal (cs : List Char) : ℕ :=
  cs.foldl (fun a c => 10 * a + (c.toNat - '0'.toNat)) 0

/-- Mantissa `digits [. digits]` (at least one digit overall); returns
its exact value and the unconsumed remainder. -/
def parseMantissa (cs : List Char) : Option (ℚ × List Char) :=
  let ip := takeDigits cs
  match ip.2 with
  | '.' :: r2 =>
    let fp := takeDigits r2
    if ip.1.isEmpty && fp.1.isEmpty then none
    else some ((digitsVal ip.1 : ℚ) + (digitsVal fp.1 : ℚ) / (10 : ℚ) ^ fp.1.length, fp.2)
  | _ => if ip.1.isEmpty then none else some ((digitsVal ip.1 : ℚ), ip.2)

/-- Number: mantissa with optional exponent, consuming the whole input. -/
def parseNumber? (cs : List Char) : Option ℚ :=
  match parseMantissa cs with
  | none => none
  | some (m, rest) =>
    match rest with
    | [] => some m
    | e :: r1 =>
      if e = 'e' ∨ e = 'E' then
        let sr := splitSign r1
        let ds := takeDigits sr.2
        if ds.1.isEmpty || !ds.2.isEmpty then none
        else some (m * (10 : ℚ) ^ (if sr.1 then -(digitsVal ds.1 : ℤ) else (digitsVal ds.1 : ℤ)))
      else none

/-- Whole-grammar membership, specials included (case-insensitive). -/
def rustFloatSyntaxOkChars (cs : List Char) : Bool :=
  let body := (splitSign cs).2
  let l := body.map Char.toLower
  l = ['i', 'n', 'f'] || l = ['i', 'n', 'f', 'i', 'n', 'i', 't', 'y'] ||
    l = ['n', 'a', 'n'] || (parseNumber? body).isSome

/-- Exact value of a finite float literal (`none` on specials, which have
no rational value). -/
def parseRustFloatChars? (cs : List Char) : Option ℚ :=
  let sp := splitSign cs
  match parseNumber? sp.2 with
  | none => none
  | some m => some (if sp.1 then -m else m)

/-- `str::strip_suffix('%')`. -/
def stripPercent? (cs : List Char) : Option (List Char) :=
  match cs.reverse with
  | '%' :: rest => some rest.reverse
  | _ => none

/-- fn is_decimal_percentage: strip one trailing `%`, then the remainder
must parse as a float (`value.strip_suffix('%').and_then(parse).is_some()`). -/
def is_decimal_percentage (value : String) : Bool :=
  match stripPercent? value.data with
  | some rest => rustFloatSyntaxOkChars rest
  | none => false

/-! ## Resolution (`parse_dump`) and dispatch (`pw_cli`) -/

/-- The `anyhow` error cases of `parse_dump` / `pw_cli`, in the order the
code can raise them. -/
inductive PwErr where
  | defaultSinkNotFound
  | nodeNotFound (sink : String)
  | deviceNotFound (deviceId : Int)
  | outputRouteNotFound
  | noVolumeChannels
  | invalidDelta
  | emptyChannelIndex
  deriving DecidableEq

/-- The filter_map closure of the metadata scan: a Metadata object of the
metadata interface type. -/
def metadataOf : PipeWireObject → Option PipeWireInterfaceMetadata
  | .metadata md => if md.typ = "PipeWire:Interface:Metadata" then some md else none
  | _ => none

/-- The find_map closure over metadata entries: a `default.audio.sink`
entry whose value has the name shape. -/
def sinkNameOf (md : Metadata) : Option String :=
  match md.value with
  | .name mv => if md.key = "default.audio.sink" then some mv.name else none
  | .value _ => none

/-- The find_map closure of the node scan. -/
def nodeOf (sink : String) : PipeWireObject → Option PipeWireInterfaceNode
  | .node n =>
    if n.typ = "PipeWire:Interface:Node" ∧ n.info.props.node_name = sink then some n else none
  | _ => none

/-- The find_map closure of the device scan. -/
def deviceOf (deviceId : Int) : PipeWireObject → Option PipeWireInterfaceDevice
  | .device d =>
    if d.typ = "PipeWire:Interface:Device" ∧ d.id = deviceId then some d else none
  | _ => none

/-- Step 1 of `parse_dump`: filter the metadata objects, flatten their
entries, take the first `default.audio.sink` name. -/
def findDefaultSink (objs : List PipeWireObject) : Option String :=
  ((objs.filterMap metadataOf).flatMap fun md => md.metadata).findSome? sinkNameOf

/-- fn parse_dump: default sink name → node → device → Output route →
non-empty channelVolumes, each step a first-match linear scan. -/
def parse_dump (objs : List PipeWireObject) :
    Except PwErr (PipeWireInterfaceNode × DeviceRoute) :=
  match findDefaultSink objs with
  | none => .error .defaultSinkNotFound
  | some sink =>
    match objs.findSome? (nodeOf sink) with
    | none => .error (.nodeNotFound sink)
    | some node =>
      match objs.findSome? (deviceOf node.info.props.device_id) with
      | none => .error (.deviceNotFound node.info.props.device_id)
      | some device =>
        match device.info.params.route.find? (fun r => r.direction = "Output") with
        | none => .error .outputRouteNotFound
        | some route =>
          if route.props.channel_volumes.isEmpty then .error .noVolumeChannels
          else .ok (node, route)

/-- The three subcommands that reach `pw_cli` (clap rejects anything else
before the pipeline runs; the `change` delta has passed
`is_decimal_percentage`). -/
inductive PwOp where
  | muteOp (transition : String)
  | change (delta : String)
  | status
  deriving DecidableEq

/-- What a `pw_cli` invocation does: hand a command to `pw-cli`
(serialized from the `PipeWireCommand`), or print one status line. -/
inductive StatusLine where
  | muted
  | vol (percentageField : Int) (tooltipValue : ℚ)
  deriving DecidableEq

/-- `StatusLine.muted` models the line `{"alt":"mute", "tooltip":"muted"}`;
`StatusLine.vol p t` models `{"percentage":<p>, "tooltip":"<t>%"}` where
`p` is what `{:.0}` prints for `vol * 100.0` and `t` is the exact value
that `{}` prints. -/
inductive PwEffect where
  | command (c : PipeWireCommand)
  | statusOut (line : StatusLine)
  deriving DecidableEq

/-- `f64::clamp`: `min` if below, `max` if above, else unchanged. -/
def rustClamp (x lo hi : ℚ) : ℚ :=
  if x < lo then lo else if x > hi then hi else x

/-- The integer Rust's `{:.0}` formatting prints for a finite nonnegative
value: round to nearest, ties to even. -/
def roundTiesToEven (q : ℚ) : ℤ :=
  if q - (⌊q⌋ : ℚ) < 1 / 2 then ⌊q⌋
  else if (1 / 2 : ℚ) < q - (⌊q⌋ : ℚ) then ⌊q⌋ + 1
  else if ⌊q⌋ % 2 = 0 then ⌊q⌋ else ⌊q⌋ + 1

/-- fn pw_cli, the part between argument lookup and process spawning.
The command starts from `index = route.index`,
`device = node.info.props.card_profile_device` and `..Default::default()`
(`mute = false`, `channelVolumes = []`), then the subcommand's branch
updates it.  `change` drops the delta's last byte (`&delta[..delta.len() - 1]`,
modelled as dropping the last char, which agrees on the ASCII `%` the
validator guarantees) and parses the rest as `f64` (`?` on failure); `status` prints and sends nothing.  The empty
`channel_volumes` index panic of `status` is modelled as
`PwErr.emptyChannelIndex` (unreachable for routes out of `parse_dump`). -/
def pw_cli (op : PwOp) (node : PipeWireInterfaceNode) (route : DeviceRoute) :
    Except PwErr PwEffect :=
  let cmd0 : PipeWireCommand :=
    { index := route.index
      device := node.info.props.card_profile_device
      props := { mute := false, channel_volumes := [] } }
  match op with
  | .muteOp transition =>
    let m : Bool :=
      if transition = "on" then true
      else if transition = "toggle" then !route.props.mute
      else false
    .ok (.command { cmd0 with props := { cmd0.props with mute := m } })
  | .change delta =>
    match parseRustFloatChars? delta.data.dropLast with
    | none => .error .invalidDelta
    | some percent =>
      let increment := percent * (1 / 100)
      let vols := route.props.channel_volumes.map fun vol => rustClamp (vol + increment) 0 1
      .ok (.command { cmd0 with props := { cmd0.props with channel_volumes := vols } })
  | .status =>
    if route.props.mute then .ok (.statusOut .muted)
    else
      match route.props.channel_volumes with
      | [] => .error .emptyChannelIndex
      | vol :: _ =>
        .ok (.statusOut (.vol (roundTiesToEven (vol * 100)) (vol * 100)))

/-- main's pipeline after `pw-dump` decoding: resolve with `parse_dump`,
then dispatch with `pw_cli`; a resolution error aborts before any
command is built. -/
def runPipeline (op : PwOp) (objs : List PipeWireObject) : Except PwErr PwEffect :=
  match parse_dump objs with
  | .error e => .error e
  | .ok nr => pw_cli op nr.1 nr.2

/-! ## The serde decoder

`Vec<PipeWireObject>` is deserialized with serde's derive machinery: an
untagged enum buffers the JSON value and tries its variants in
declaration order, taking the first that matches; a struct needs every
non-`Option` field present with the right scalar shape and ignores
unknown fields; `Option` fields treat a missing key or `null` as `None`;
`serde_json::Value` matches anything.  The decoders below spell that out
per shape, from the innermost structs outward. -/

/-- First value under a key (a struct field lookup). -/
def Json.getField? (j : Json) (k : String) : Option Json :=
  match j with
  | .obj fields => fields.lookup k
  | _ => none

/-- i64 field: only an integer-token number. -/
def decodeI64 : Json → Option Int
  | .num (.int n) => some n
  | _ => none

/-- f64 field: any number token. -/
def decodeF64 : Json → Option ℚ
  | .num (.int n) => some (n : ℚ)
  | .num (.float q) => some q
  | _ => none

/-- String field. -/
def decodeString : Json → Option String
  | .str s => some s
  | _ => none

/-- bool field. -/
def decodeBoolField : Json → Option Bool
  | .bool b => some b
  | _ => none

/-- Vec<f64> field. -/
def decodeF64List : Json → Option (List ℚ)
  | .arr xs => xs.mapM decodeF64
  | _ => none

/-- Option<i64> field: missing or null is `none`; present non-integers
fail the whole struct. -/
def decodeOptI64Field (j : Json) (k : String) : Option (Option Int) :=
  match j.getField? k with
  | none => some none
  | some .null => some none
  | some v => (decodeI64 v).map some

/-- struct DeviceRouteProp. -/
def decodeDeviceRouteProp (j : Json) : Option DeviceRouteProp := do
  let mute ← j.getField? "mute" >>= decodeBoolField
  let vb ← j.getField? "volumeBase" >>= decodeF64
  let cv ← j.getField? "channelVolumes" >>= decodeF64List
  some { mute := mute, volume_base := vb, channel_volumes := cv }

/-- struct DeviceRoute. -/
def decodeDeviceRoute (j : Json) : Option DeviceRoute := do
  let index ← j.getField? "index" >>= decodeI64
  let direction ← j.getField? "direction" >>= decodeString
  let props ← j.getField? "props" >>= decodeDeviceRouteProp
  some { index := index, direction := direction, props := props }

/-- Vec<DeviceRoute>. -/
def decodeDeviceRouteList : Json → Option (List DeviceRoute)
  | .arr xs => xs.mapM decodeDeviceRoute
  | _ => none

/-- struct PipeWireInterfaceDevice (with its nested info.params.Route). -/
def decodeDevice (j : Json) : Option PipeWireInterfaceDevice := do
  let id ← j.getField? "id" >>= decodeI64
  let typ ← j.getField? "type" >>= decodeString
  let info ← j.getField? "info"
  let params ← info.getField? "params"
  let route ← params.getField? "Route" >>= decodeDeviceRouteList
  some { id := id, typ := typ, info := { params := { route := route } } }

/-- struct NodeProps. -/
def decodeNodeProps (j : Json) : Option NodeProps := do
  let cpd ← j.getField? "card.profile.device" >>= decodeI64
  let did ← j.getField? "device.id" >>= decodeI64
  let nn ← j.getField? "node.name" >>= decodeString
  some { card_profile_device := cpd, device_id := did, node_name := nn }

/-- struct NodeEnumFormat (all fields optional, but the entry must still
be a JSON object). -/
def decodeNodeEnumFormat (j : Json) : Option NodeEnumFormat :=
  match j with
  | .obj _ => do
    let ch ← decodeOptI64Field j "channels"
    some { channels := ch }
  | _ => none

/-- struct NodePropInfoTypeVolume. -/
def decodeNodePropInfoTypeVolume (j : Json) : Option NodePropInfoTypeVolume := do
  let d ← j.getField? "default" >>= decodeF64
  let mn ← j.getField? "min" >>= decodeF64
  let mx ← j.getField? "max" >>= decodeF64
  some { default := d, min := mn, max := mx }

/-- enum NodePropInfo (untagged): try Volume, fall back to Value. -/
def decodeNodePropInfo (j : Json) : NodePropInfo :=
  match (do
      let id ← j.getField? "id" >>= decodeString
      let t ← j.getField? "type" >>= decodeNodePropInfoTypeVolume
      some (NodePropInfoVolume.mk id t)) with
  | some v => .volume v
  | none => .value j

/-- struct NodePropVolume. -/
def decodeNodePropVolume (j : Json) : Option NodePropVolume := do
  let v ← j.getField? "volume" >>= decodeF64
  let m ← j.getField? "mute" >>= decodeBoolField
  let cv ← j.getField? "channelVolumes" >>= decodeF64List
  some { volume := v, mute := m, channel_volumes := cv }

/-- enum NodeProp (untagged): try Volume, fall back to Value. -/
def decodeNodeProp (j : Json) : NodeProp :=
  match decodeNodePropVolume j with
  | some v => .volume v
  | none => .value j

/-- struct NodeParams: three arrays; the untagged element enums never
fail, so only a non-array shape does. -/
def decodeNodeParams (j : Json) : Option NodeParams := do
  let ef ← match j.getField? "EnumFormat" with
    | some (.arr xs) => xs.mapM decodeNodeEnumFormat
    | _ => none
  let pi ← match j.getField? "PropInfo" with
    | some (.arr xs) => some (xs.map decodeNodePropInfo)
    | _ => none
  let ps ← match j.getField? "Props" with
    | some (.arr xs) => some (xs.map decodeNodeProp)
    | _ => none
  some { enum_format := ef, prop_info := pi, props := ps }

/-- struct PipeWireInterfaceNode (with nested info). -/
def decodeNode (j : Json) : Option PipeWireInterfaceNode := do
  let id ← j.getField? "id" >>= decodeI64
  let typ ← j.getField? "type" >>= decodeString
  let info ← j.getField? "info"
  let props ← info.getField? "props" >>= decodeNodeProps
  let params ← info.getField? "params" >>= decodeNodeParams
  some { id := id, typ := typ, info := { props := props, params := params } }

/-- enum MetadataValue (untagged): try Name, fall back to Value. -/
def decodeMetadataValue (j : Json) : MetadataValue :=
  match j.getField? "name" >>= decodeString with
  | some n => .name { name := n }
  | none => .value j

/-- struct Metadata (one entry). -/
def decodeMetadataEntry (j : Json) : Option Metadata := do
  let k ← j.getField? "key" >>= decodeString
  some { key := k, value := decodeMetadataValue (← j.getField? "value") }

/-- struct PipeWireInterfaceMetadata. -/
def decodeMetadataObj (j : Json) : Option PipeWireInterfaceMetadata := do
  let typ ← j.getField? "type" >>= decodeString
  let entries ← match j.getField? "metadata" with
    | some (.arr xs) => xs.mapM decodeMetadataEntry
    | _ => none
  some { typ := typ, metadata := entries }

/-- enum PipeWireObject (untagged): Metadata, else Node, else Device,
else keep the raw value.  Total: a well-formed entry never fails to
decode. -/
def decodeObject (j : Json) : PipeWireObject :=
  match decodeMetadataObj j with
  | some m => .metadata m
  | none =>
    match decodeNode j with
    | some n => .node n
    | none =>
      match decodeDevice j with
      | some d => .device d
      | none => .value j

/-! ## First-match characterizations and other helper lemmas -/

/-- `findSome?` hits `b` exactly when some element maps to `b` and every
earlier element maps to `none`: first match in input order. -/
theorem findSome?_eq_some_iff_first {α β : Type} (f : α → Option β) (l : List α) (b : β) :
    l.findSome? f = some b ↔
      ∃ l₁ a l₂, l = l₁ ++ a :: l₂ ∧ f a = some b ∧ ∀ x ∈ l₁, f x = none := by
  induction l with
  | nil => simp
  | cons hd tl ih =>
    rw [List.findSome?_cons]
    cases h : f hd with
    | some v =>
      constructor
      · intro he
        refine ⟨[], hd, tl, rfl, ?_, by simp⟩
        rw [h]
        exact he
      · rintro ⟨l₁, a, l₂, hl, hfa, hnone⟩
        cases l₁ with
        | nil =>
          simp only [List.nil_append, List.cons.injEq] at hl
          rw [hl.1] at h
          rw [h] at hfa
          exact hfa
        | cons x xs =>
          simp only [List.cons_append, List.cons.injEq] at hl
          have hx : f hd = none := by
            rw [hl.1]
            exact hnone x (by simp)
          rw [hx] at h
          exact absurd h (by simp)
    | none =>
      rw [ih]
      constructor
      · rintro ⟨l₁, a, l₂, hl, hfa, hnone⟩
        refine ⟨hd :: l₁, a, l₂, by rw [hl, List.cons_append], hfa, ?_⟩
        intro x hx
        rcases List.mem_cons.mp hx with hx | hx
        · rw [hx]; exact h
        · exact hnone x hx
      · rintro ⟨l₁, a, l₂, hl, hfa, hnone⟩
        cases l₁ with
        | nil =>
          simp only [List.nil_append, List.cons.injEq] at hl
          rw [hl.1] at h
          rw [h] at hfa
          exact absurd hfa (by simp)
        | cons x xs =>
          simp only [List.cons_append, List.cons.injEq] at hl
          exact ⟨xs, a, l₂, hl.2, hfa, fun y hy => hnone y (by simp [hy])⟩

/-- Inversion of the node matcher. -/
theorem nodeOf_eq_some_iff (sink : String) (o : PipeWireObject) (n : PipeWireInterfaceNode) :
    nodeOf sink o = some n ↔
      o = .node n ∧ n.typ = "PipeWire:Interface:Node" ∧ n.info.props.node_name = sink := by
  cases o with
  | node m =>
    simp only [nodeOf]
    constructor
    · intro he
      by_cases hc : m.typ = "PipeWire:Interface:Node" ∧ m.info.props.node_name = sink
      · rw [if_pos hc] at he
        injection he with he
        subst he
        exact ⟨rfl, hc.1, hc.2⟩
      · rw [if_neg hc] at he
        exact Option.noConfusion he
    · rintro ⟨he, h1, h2⟩
      injection he with he
      subst he
      rw [if_pos ⟨h1, h2⟩]
  | metadata m => simp [nodeOf]
  | device d => simp [nodeOf]
  | value v => simp [nodeOf]

/-- Inversion of the device matcher. -/
theorem deviceOf_eq_some_iff (deviceId : Int) (o : PipeWireObject) (d : PipeWireInterfaceDevice) :
    deviceOf deviceId o = some d ↔
      o = .device d ∧ d.typ = "PipeWire:Interface:Device" ∧ d.id = deviceId := by
  cases o with
  | device m =>
    simp only [deviceOf]
    constructor
    · intro he
      by_cases hc : m.typ = "PipeWire:Interface:Device" ∧ m.id = deviceId
      · rw [if_pos hc] at he
        injection he with he
        subst he
        exact ⟨rfl, hc.1, hc.2⟩
      · rw [if_neg hc] at he
        exact Option.noConfusion he
    · rintro ⟨he, h1, h2⟩
      injection he with he
      subst he
      rw [if_pos ⟨h1, h2⟩]
  | metadata m => simp [deviceOf]
  | node n => simp [deviceOf]
  | value v => simp [deviceOf]

/-- What `pw_cli` does on `change` once the delta's numeric part is known:
one command, `mute = false`, addressing copied from the resolved target,
every channel clamped after the same additive increment. -/
theorem pw_cli_change_eq (node : PipeWireInterfaceNode) (route : DeviceRoute)
    (delta : String) (percent : ℚ)
    (hp : parseRustFloatChars? delta.data.dropLast = some percent) :
    pw_cli (.change delta) node route = .ok (.command
      { index := route.index
        device := node.info.props.card_profile_device
        props := { mute := false
                   channel_volumes := route.props.channel_volumes.map
                     fun vol => rustClamp (vol + percent / 100) 0 1 } }) := by
  simp only [pw_cli, hp, mul_one_div]

/-! ## Concrete fixtures -/

/-- Node params with empty lists (they play no role in device-routed
resolution, but serde requires the fields present). -/
def emptyNodeParams : NodeParams :=
  { enum_format := [], prop_info := [], props := [] }

/-- The round-trip fixture's node: named after the sink, `device.id = 3`,
with a chosen `card.profile.device` (the fixture's description leaves it
open, and serde requires some value for it). -/
def fixtureNode (cpd : Int) : PipeWireInterfaceNode :=
  { id := 1
    typ := "PipeWire:Interface:Node"
    info := { props := { card_profile_device := cpd
                         device_id := 3
                         node_name := "alsa_output.example" }
              params := emptyNodeParams } }

/-- The round-trip fixture's Output route: index 0, unmuted,
channelVolumes [0.5, 0.5]. -/
def fixtureRoute : DeviceRoute :=
  { index := 0
    direction := "Output"
    props := { mute := false, volume_base := 0, channel_volumes := [1/2, 1/2] } }

/-- The round-trip fixture dump: metadata naming the sink, the node, the
device with one Output route. -/
def fixtureDump (cpd : Int) : List PipeWireObject :=
  [ .metadata { typ := "PipeWire:Interface:Metadata"
                metadata := [ { key := "default.audio.sink"
                                value := .name { name := "alsa_output.example" } } ] }
  , .node (fixtureNode cpd)
  , .device { id := 3
              typ := "PipeWire:Interface:Device"
              info := { params := { route := [fixtureRoute] } } } ]

/-- The exact command the round-trip scenario claims:
`{"index":0,"device":3,"props":{"mute":false,"channelVolumes":[0.6,0.6]}}`. -/
def claimedCommand : PipeWireCommand :=
  { index := 0, device := 3, props := { mute := false, channel_volumes := [3/5, 3/5] } }

/-! ## C7: delta-string validation -/

/-- C7: the validator accepts exactly the strings that, after stripping a
trailing `%`, parse under the float grammar; in particular it accepts
"+1%", "-0.5%", "12.25%" and rejects "1", "%", "abc%", "".  (The
grammar is Rust's `f32` one, which also has the `inf`/`nan` specials and
exponents.) -/
theorem c7_delta_validation :
    (∀ s : String, is_decimal_percentage s = true ↔
      ∃ body, stripPercent? s.data = some body ∧ rustFloatSyntaxOkChars body = true) ∧
    is_decimal_percentage "+1%" = true ∧
    is_decimal_percentage "-0.5%" = true ∧
    is_decimal_percentage "12.25%" = true ∧
    is_decimal_percentage "1" = false ∧
    is_decimal_percentage "%" = false ∧
    is_decimal_percentage "abc%" = false ∧
    is_decimal_percentage "" = false := by
  refine ⟨?_, by decide, by decide, by decide, by decide, by decide, by decide, by decide⟩
  intro s
  unfold is_decimal_percentage
  cases h : stripPercent? s.data with
  | none => simp
  | some rest => simp

/-! ## C8: is a leading sign required? -/

/-- The grammar rejects a body starting with `+` (the sign was already
consumed before the number). -/
theorem parseNumber?_plus_head (xs : List Char) : parseNumber? ('+' :: xs) = none := rfl

/-- The grammar rejects a body starting with `-`. -/
theorem parseNumber?_minus_head (xs : List Char) : parseNumber? ('-' :: xs) = none := rfl

/-- A string whose body parses as a number carries no leading sign, so
`splitSign` leaves it unchanged. -/
theorem splitSign_of_parseNumber? (cs : List Char) (h : (parseNumber? cs).isSome = true) :
    splitSign cs = (false, cs) := by
  cases cs with
  | nil => rfl
  | cons c cs2 =>
    rw [splitSign.eq_def]
    split
    · next heq =>
      exfalso
      injection heq with h1 h2
      subst h1
      subst h2
      rw [parseNumber?_plus_head] at h
      simp at h
    · next heq =>
      exfalso
      injection heq with h1 h2
      subst h1
      subst h2
      rw [parseNumber?_minus_head] at h
      simp at h
    · rfl

/-- Stripping the `%` just appended. -/
theorem stripPercent?_append (cs : List Char) : stripPercent? (cs ++ ['%']) = some cs := by
  simp [stripPercent?, List.reverse_append]

/-- C8 (counterexample): "12.25%" passes validation yet starts with a
digit, not a sign. -/
theorem c8_counterexample :
    is_decimal_percentage "12.25%" = true ∧
    "12.25%".data.head? = some '1' ∧ ('1' : Char) ≠ '+' ∧ ('1' : Char) ≠ '-' :=
  ⟨by decide, by decide, by decide, by decide⟩

/-- C8 (amended): the leading sign is optional: any body accepted by the
number grammar passes validation bare as well as with either sign. -/
theorem c8_sign_optional (body : List Char) (h : (parseNumber? body).isSome = true) :
    is_decimal_percentage (String.mk (body ++ ['%'])) = true ∧
    is_decimal_percentage (String.mk ('+' :: (body ++ ['%']))) = true ∧
    is_decimal_percentage (String.mk ('-' :: (body ++ ['%']))) = true := by
  refine ⟨?_, ?_, ?_⟩
  · show (match stripPercent? (body ++ ['%']) with
      | some rest => rustFloatSyntaxOkChars rest
      | none => false) = true
    rw [stripPercent?_append]
    simp only [rustFloatSyntaxOkChars, splitSign_of_parseNumber? body h, h]
    simp
  · show (match stripPercent? ('+' :: (body ++ ['%'])) with
      | some rest => rustFloatSyntaxOkChars rest
      | none => false) = true
    rw [show ('+' :: (body ++ ['%'])) = ('+' :: body) ++ ['%'] by simp, stripPercent?_append]
    simp only [rustFloatSyntaxOkChars, splitSign, h]
    simp
  · show (match stripPercent? ('-' :: (body ++ ['%'])) with
      | some rest => rustFloatSyntaxOkChars rest
      | none => false) = true
    rw [show ('-' :: (body ++ ['%'])) = ('-' :: body) ++ ['%'] by simp, stripPercent?_append]
    simp only [rustFloatSyntaxOkChars, splitSign, h]
    simp

/-- C8 witness: the amended statement at the concrete body "12.25". -/
theorem c8_witness :
    is_decimal_percentage (String.mk ("12.25".data ++ ['%'])) = true ∧
    is_decimal_percentage (String.mk ('+' :: ("12.25".data ++ ['%']))) = true ∧
    is_decimal_percentage (String.mk ('-' :: ("12.25".data ++ ['%']))) = true :=
  c8_sign_optional "12.25".data (by decide)

/-! ## C10: change always unmutes -/

/-- C10: whatever the route's current mute flag, a command built by the
change branch has `props.mute = false` (the field keeps its
`Default::default()` value). -/
theorem c10_change_unmutes (node : PipeWireInterfaceNode) (route : DeviceRoute)
    (delta : String) (c : PipeWireCommand)
    (hc : pw_cli (.change delta) node route = .ok (.command c)) :
    c.props.mute = false := by
  simp only [pw_cli] at hc
  cases hp : parseRustFloatChars? delta.data.dropLast with
  | none =>
    rw [hp] at hc
    exact Except.noConfusion hc
  | some percent =>
    rw [hp] at hc
    injection hc with hc
    injection hc with hc
    rw [← hc]

/-- C10 witness: the change "+10%" on the round-trip fixture's route
(which is unmuted; see `c2_round_trip` for the resolved values). -/
theorem c10_witness :
    ({ index := fixtureRoute.index
       device := (fixtureNode 3).info.props.card_profile_device
       props := { mute := false
                  channel_volumes := fixtureRoute.props.channel_volumes.map
                    fun vol => rustClamp (vol + ((10 : ℕ) : ℚ) / 100) 0 1 } } :
      PipeWireCommand).props.mute = false :=
  c10_change_unmutes (fixtureNode 3) fixtureRoute "+10%" _
    (pw_cli_change_eq (fixtureNode 3) fixtureRoute "+10%" ((10 : ℕ) : ℚ) rfl)

/-! ## C3: the change arithmetic -/

/-- C3: on volumes inside [0,1] the change branch maps every channel
independently to `clamp(old + percent/100, 0, 1)`; a zero delta leaves
every channel unchanged, +1000% saturates every channel at exactly 1,
-1000% at exactly 0. -/
theorem c3_change_clamp (node : PipeWireInterfaceNode) (route : DeviceRoute)
    (delta : String) (percent : ℚ)
    (hp : parseRustFloatChars? delta.data.dropLast = some percent)
    (hv : ∀ v ∈ route.props.channel_volumes, 0 ≤ v ∧ v ≤ 1) :
    pw_cli (.change delta) node route = .ok (.command
      { index := route.index
        device := node.info.props.card_profile_device
        props := { mute := false
                   channel_volumes := route.props.channel_volumes.map
                     fun vol => rustClamp (vol + percent / 100) 0 1 } }) ∧
    (percent = 0 →
      route.props.channel_volumes.map (fun vol => rustClamp (vol + percent / 100) 0 1) =
        route.props.channel_volumes) ∧
    (percent = 1000 →
      route.props.channel_volumes.map (fun vol => rustClamp (vol + percent / 100) 0 1) =
        route.props.channel_volumes.map fun _ => (1 : ℚ)) ∧
    (percent = -1000 →
      route.props.channel_volumes.map (fun vol => rustClamp (vol + percent / 100) 0 1) =
        route.props.channel_volumes.map fun _ => (0 : ℚ)) := by
  refine ⟨pw_cli_change_eq node route delta percent hp, ?_, ?_, ?_⟩
  · intro h0
    subst h0
    have he : route.props.channel_volumes.map (fun vol => rustClamp (vol + 0 / 100) 0 1) =
        route.props.channel_volumes.map id := by
      apply List.map_congr_left
      intro v hvmem
      obtain ⟨h1, h2⟩ := hv v hvmem
      have e : v + 0 / 100 = v := by norm_num
      simp only [rustClamp, e, id]
      rw [if_neg (not_lt.mpr h1), if_neg (not_lt.mpr h2)]
    rw [he, List.map_id]
  · intro h0
    subst h0
    apply List.map_congr_left
    intro v hvmem
    obtain ⟨h1, _⟩ := hv v hvmem
    simp only [rustClamp]
    rw [if_neg (by linarith), if_pos (by linarith)]
  · intro h0
    subst h0
    apply List.map_congr_left
    intro v hvmem
    obtain ⟨_, h2⟩ := hv v hvmem
    simp only [rustClamp]
    rw [if_pos (by linarith)]

/-- C3 witness: the zero delta "+0%" on the round-trip fixture's route. -/
theorem c3_witness :
    (pw_cli (.change "+0%") (fixtureNode 3) fixtureRoute = .ok (.command
      { index := fixtureRoute.index
        device := (fixtureNode 3).info.props.card_profile_device
        props := { mute := false
                   channel_volumes := fixtureRoute.props.channel_volumes.map
                     fun vol => rustClamp (vol + 0 / 100) 0 1 } }) ∧
    ((0 : ℚ) = 0 →
      fixtureRoute.props.channel_volumes.map (fun vol => rustClamp (vol + 0 / 100) 0 1) =
        fixtureRoute.props.channel_volumes) ∧
    ((0 : ℚ) = 1000 →
      fixtureRoute.props.channel_volumes.map (fun vol => rustClamp (vol + 0 / 100) 0 1) =
        fixtureRoute.props.channel_volumes.map fun _ => (1 : ℚ)) ∧
    ((0 : ℚ) = -1000 →
      fixtureRoute.props.channel_volumes.map (fun vol => rustClamp (vol + 0 / 100) 0 1) =
        fixtureRoute.props.channel_volumes.map fun _ => (0 : ℚ))) :=
  c3_change_clamp (fixtureNode 3) fixtureRoute "+0%" 0
    (by rw [show parseRustFloatChars? ("+0%".data.dropLast) = some ((0 : ℕ) : ℚ) from rfl]
        norm_num)
    (by intro v hvmem
        simp only [fixtureRoute] at hvmem
        simp only [List.mem_cons, List.not_mem_nil, or_false] at hvmem
        rcases hvmem with h | h <;> rw [h] <;> norm_num)

/-! ## C9: are pairwise differences preserved? -/

/-- The route for the C9 counterexample: channels 0 and 0.5. -/
def c9route : DeviceRoute :=
  { index := 0
    direction := "Output"
    props := { mute := false, volume_base := 0, channel_volumes := [0, 1/2] } }

/-- C9 (counterexample): change "-50%" clamps channel 0 at 0 while moving
channel 1 from 0.5 to 0, so the pairwise difference jumps from -1/2 to 0:
the claim fails whenever clamping saturates one channel but not another
(a delta of -50% is valid, and [0, 0.5] is a legal starting vector). -/
theorem c9_counterexample :
    pw_cli (.change "-50%") (fixtureNode 3) c9route = .ok (.command
      { index := 0
        device := 3
        props := { mute := false, channel_volumes := [0, 0] } }) ∧
    c9route.props.channel_volumes = [0, 1/2] ∧
    (0 : ℚ) - 0 ≠ (0 : ℚ) - 1/2 := by
  refine ⟨?_, rfl, by norm_num⟩
  rw [pw_cli_change_eq (fixtureNode 3) c9route "-50%" (-((50 : ℕ) : ℚ)) rfl]
  simp only [c9route, fixtureNode, rustClamp, List.map_cons, List.map_nil]
  norm_num

/-- C9 (amended): pairwise differences are preserved whenever no channel
is clamped, i.e. every shifted volume already lies in [0,1]; the same
additive increment is applied to every channel. -/
theorem c9_diff_preserved (node : PipeWireInterfaceNode) (route : DeviceRoute)
    (delta : String) (percent : ℚ) (c : PipeWireCommand) (i j : ℕ) (vi vj wi wj : ℚ)
    (hp : parseRustFloatChars? delta.data.dropLast = some percent)
    (hc : pw_cli (.change delta) node route = .ok (.command c))
    (hnc : ∀ v ∈ route.props.channel_volumes,
      0 ≤ v + percent / 100 ∧ v + percent / 100 ≤ 1)
    (hvi : route.props.channel_volumes[i]? = some vi)
    (hvj : route.props.channel_volumes[j]? = some vj)
    (hwi : c.props.channel_volumes[i]? = some wi)
    (hwj : c.props.channel_volumes[j]? = some wj) :
    wi - wj = vi - vj := by
  rw [pw_cli_change_eq node route delta percent hp] at hc
  injection hc with hc
  injection hc with hc
  subst hc
  simp only [List.getElem?_map, hvi, Option.map_some] at hwi
  simp only [List.getElem?_map, hvj, Option.map_some] at hwj
  injection hwi with hwi
  injection hwj with hwj
  obtain ⟨hi1, hi2⟩ := hnc vi (List.getElem?_mem hvi)
  obtain ⟨hj1, hj2⟩ := hnc vj (List.getElem?_mem hvj)
  rw [← hwi, ← hwj]
  simp only [rustClamp]
  rw [if_neg (not_lt.mpr hi1), if_neg (not_lt.mpr hi2),
    if_neg (not_lt.mpr hj1), if_neg (not_lt.mpr hj2)]
  ring

/-- C9 witness: the no-clamp case at "+10%" on channels [1/2, 1/4]. -/
theorem c9_witness :
    (1 : ℚ)/2 + ((10 : ℕ) : ℚ) / 100 - ((1 : ℚ)/4 + ((10 : ℕ) : ℚ) / 100) =
      (1 : ℚ)/2 - (1 : ℚ)/4 := by
  have h := c9_diff_preserved (fixtureNode 3)
    { index := 0
      direction := "Output"
      props := { mute := false, volume_base := 0, channel_volumes := [1/2, 1/4] } }
    "+10%" ((10 : ℕ) : ℚ) _ 0 1 (1/2) (1/4)
    ((1 : ℚ)/2 + ((10 : ℕ) : ℚ) / 100) ((1 : ℚ)/4 + ((10 : ℕ) : ℚ) / 100)
    rfl
    (pw_cli_change_eq _ _ _ _ rfl)
    (by intro v hvmem
        simp only [List.mem_cons, List.not_mem_nil, or_false] at hvmem
        rcases hvmem with h | h <;> rw [h] <;> norm_num)
    rfl rfl ?_ ?_
  · exact h
  · show (List.map (fun vol => rustClamp (vol + ((10 : ℕ) : ℚ) / 100) 0 1) [1/2, 1/4])[0]? =
      some ((1 : ℚ)/2 + ((10 : ℕ) : ℚ) / 100)
    simp only [List.map_cons, List.map_nil]
    rw [show rustClamp ((1 : ℚ)/2 + ((10 : ℕ) : ℚ) / 100) 0 1 =
      (1 : ℚ)/2 + ((10 : ℕ) : ℚ) / 100 by simp only [rustClamp]; norm_num]
    rfl
  · show (List.map (fun vol => rustClamp (vol + ((10 : ℕ) : ℚ) / 100) 0 1) [1/2, 1/4])[1]? =
      some ((1 : ℚ)/4 + ((10 : ℕ) : ℚ) / 100)
    simp only [List.map_cons, List.map_nil]
    rw [show rustClamp ((1 : ℚ)/4 + ((10 : ℕ) : ℚ) / 100) 0 1 =
      (1 : ℚ)/4 + ((10 : ℕ) : ℚ) / 100 by simp only [rustClamp]; norm_num]
    rfl

/-! ## C4: status output -/

/-- `{:.0}` of an integer value is that integer. -/
theorem roundTiesToEven_intCast (n : ℤ) : roundTiesToEven (n : ℚ) = n := by
  simp only [roundTiesToEven, Int.floor_intCast]
  rw [if_pos]
  norm_num

/-- The route for the C4 counterexample: one channel at 0.125, so the
percentage value is 12.5, exactly representable and midway between
integers. -/
def c4route : DeviceRoute :=
  { index := 0
    direction := "Output"
    props := { mute := false, volume_base := 0, channel_volumes := [1/8] } }

/-- C4 (counterexample): at channel volume 0.125 the status line is
`{"percentage":12, "tooltip":"12.5%"}`: the percentage field is rounded
(ties to even) but the tooltip is printed with `{}`, carrying the raw
value 12.5, which is no integer, so the tooltip is not of the claimed
`"<int>%"` form. -/
theorem c4_counterexample :
    pw_cli .status (fixtureNode 3) c4route = .ok (.statusOut (.vol 12 (25/2))) ∧
    (∀ n : ℤ, ¬ ((25/2 : ℚ) = (n : ℚ))) := by
  constructor
  · have hf : ⌊(25/2 : ℚ)⌋ = 12 := by
      rw [Int.floor_eq_iff]
      norm_num
    have hr : roundTiesToEven (25/2 : ℚ) = 12 := by
      simp only [roundTiesToEven, hf]
      rw [if_neg (by norm_num), if_neg (by norm_num), if_pos (by decide)]
    have he : (1/8 : ℚ) * 100 = 25/2 := by norm_num
    simp only [pw_cli, c4route, List.headI]
    rw [he, hr]
    simp
  · intro n h
    have h2 : ((2 * n : ℤ) : ℚ) = ((25 : ℤ) : ℚ) := by
      push_cast
      rw [← h]
      ring
    have h3 : (2 * n : ℤ) = 25 := by exact_mod_cast h2
    omega

/-- C4 (amended): status sends no command and prints one line: the fixed
muted line when muted, else a line whose percentage field is
`channel[0] * 100` rounded (ties to even) and whose tooltip carries the
raw value `channel[0] * 100` (they agree when that value is an integer,
e.g. both are 42 at volume 0.42). -/
theorem c4_status_line (node : PipeWireInterfaceNode) (route : DeviceRoute)
    (v : ℚ) (rest : List ℚ)
    (hcv : route.props.channel_volumes = v :: rest) :
    pw_cli .status node route = .ok (.statusOut
      (cond route.props.mute .muted (.vol (roundTiesToEven (v * 100)) (v * 100)))) ∧
    (route.props.mute = false → v = 21/50 →
      pw_cli .status node route = .ok (.statusOut (.vol 42 42))) := by
  cases hm : route.props.mute with
  | true =>
    constructor
    · simp [pw_cli, hm]
    · intro hf
      exact absurd hf (by simp)
  | false =>
    constructor
    · simp [pw_cli, hm, hcv]
    · intro _ hv
      subst hv
      have he : (21/50 : ℚ) * 100 = ((42 : ℤ) : ℚ) := by norm_num
      simp only [pw_cli, hm, hcv, Bool.false_eq_true, if_neg]
      rw [he, roundTiesToEven_intCast]
      norm_num

/-- The route for the C4 witness: one channel at 0.42 (the 42% example). -/
def c4route42 : DeviceRoute :=
  { index := 0
    direction := "Output"
    props := { mute := false, volume_base := 0, channel_volumes := [21/50] } }

/-- C4 witness: the amended statement at volume 0.42. -/
theorem c4_witness :
    (pw_cli .status (fixtureNode 3) c4route42 = .ok (.statusOut
      (cond c4route42.props.mute .muted
        (.vol (roundTiesToEven ((21/50 : ℚ) * 100)) ((21/50 : ℚ) * 100)))) ∧
    (c4route42.props.mute = false → (21/50 : ℚ) = 21/50 →
      pw_cli .status (fixtureNode 3) c4route42 = .ok (.statusOut (.vol 42 42)))) :=
  c4_status_line (fixtureNode 3) c4route42 (21/50) [] rfl

/-! ## C5: missing default sink -/

/-- C5: when no metadata-interface object holds a `default.audio.sink`
entry with a name-shaped value, resolution fails with the
default-sink-not-found error and the pipeline never yields a command. -/
theorem c5_no_default_sink (objs : List PipeWireObject) (op : PwOp)
    (h : ∀ md ∈ objs.filterMap metadataOf, ∀ e ∈ md.metadata, sinkNameOf e = none) :
    parse_dump objs = .error .defaultSinkNotFound ∧
    ∀ c : PipeWireCommand, ¬ runPipeline op objs = .ok (.command c) := by
  have hsink : findDefaultSink objs = none := by
    rw [findDefaultSink, List.findSome?_eq_none_iff]
    intro e he
    rw [List.mem_flatMap] at he
    obtain ⟨md, hmd, he2⟩ := he
    exact h md hmd e he2
  constructor
  · simp [parse_dump, hsink]
  · intro c
    simp [runPipeline, parse_dump, hsink]

/-- A dump whose metadata objects carry no usable default sink: one entry
has the wrong key, the other has the right key but a non-name-shaped
value. -/
def c5objs : List PipeWireObject :=
  [ .metadata { typ := "PipeWire:Interface:Metadata"
                metadata := [ { key := "default.audio.source"
                                value := .name { name := "mic" } }
                            , { key := "default.audio.sink"
                                value := .value .null } ] }
  , .node (fixtureNode 3) ]

/-- C5 witness: the concrete sink-less dump under the status operation. -/
theorem c5_witness :
    parse_dump c5objs = .error .defaultSinkNotFound ∧
    ∀ c : PipeWireCommand, ¬ runPipeline .status c5objs = .ok (.command c) :=
  c5_no_default_sink c5objs .status (by decide)

/-! ## C2: the round-trip scenario -/

/-- C2 (counterexample): an instance of the claimed fixture whose node has
`card.profile.device = 7` (the description pins `device.id = 3` but not
`card.profile.device`, which serde requires present).  It resolves to the
claimed route, but change "+10%" builds a command whose `device` field is
7, the node's card.profile.device, not 3, the node's device.id: the
claimed command is not built. -/
theorem c2_counterexample :
    parse_dump (fixtureDump 7) = .ok (fixtureNode 7, fixtureRoute) ∧
    runPipeline (.change "+10%") (fixtureDump 7) = .ok (.command
      { index := 0
        device := 7
        props := { mute := false, channel_volumes := [3/5, 3/5] } }) ∧
    ¬ runPipeline (.change "+10%") (fixtureDump 7) = .ok (.command claimedCommand) := by
  have hrun : runPipeline (.change "+10%") (fixtureDump 7) = .ok (.command
      { index := 0
        device := 7
        props := { mute := false, channel_volumes := [3/5, 3/5] } }) := by
    have hparse : parse_dump (fixtureDump 7) = .ok (fixtureNode 7, fixtureRoute) := rfl
    simp only [runPipeline, hparse]
    rw [pw_cli_change_eq (fixtureNode 7) fixtureRoute "+10%" ((10 : ℕ) : ℚ) rfl]
    simp only [fixtureRoute, fixtureNode, rustClamp, List.map_cons, List.map_nil]
    norm_num
  refine ⟨rfl, hrun, ?_⟩
  intro habs
  rw [hrun] at habs
  injection habs with habs
  injection habs with habs
  rw [show claimedCommand =
    { index := 0, device := 3, props := { mute := false, channel_volumes := [3/5, 3/5] } }
    from rfl] at habs
  injection habs with h1 h2 h3
  exact absurd h2 (by norm_num)

/-- C2 (amended): with `card.profile.device = 3` as well, the round trip
builds exactly the claimed command; in general the command's `device`
field is the node's `card.profile.device` (copied there by `pw_cli`),
not its `device.id`. -/
theorem c2_round_trip :
    parse_dump (fixtureDump 3) = .ok (fixtureNode 3, fixtureRoute) ∧
    runPipeline (.change "+10%") (fixtureDump 3) = .ok (.command claimedCommand) ∧
    (∀ cpd : Int, runPipeline (.change "+10%") (fixtureDump cpd) = .ok (.command
      { index := 0
        device := cpd
        props := { mute := false, channel_volumes := [3/5, 3/5] } })) := by
  have hgen : ∀ cpd : Int, runPipeline (.change "+10%") (fixtureDump cpd) = .ok (.command
      { index := 0
        device := cpd
        props := { mute := false, channel_volumes := [3/5, 3/5] } }) := by
    intro cpd
    have hparse : parse_dump (fixtureDump cpd) = .ok (fixtureNode cpd, fixtureRoute) := rfl
    simp only [runPipeline, hparse]
    rw [pw_cli_change_eq (fixtureNode cpd) fixtureRoute "+10%" ((10 : ℕ) : ℚ) rfl]
    simp only [fixtureRoute, fixtureNode, rustClamp, List.map_cons, List.map_nil]
    norm_num
  exact ⟨rfl, by rw [hgen 3]; rfl, hgen⟩

/-! ## C6: decoder tolerance and priority -/

/-- C6: a well-formed entry always decodes, by first-matching-shape order
Metadata, then Node, then Device, then opaque retention of the raw
value: exactly one disjunct holds and no shape mismatch is an error. -/
theorem c6_decode_priority (j : Json) :
    (∃ m, decodeMetadataObj j = some m ∧ decodeObject j = .metadata m) ∨
    (decodeMetadataObj j = none ∧
      ∃ n, decodeNode j = some n ∧ decodeObject j = .node n) ∨
    (decodeMetadataObj j = none ∧ decodeNode j = none ∧
      ∃ d, decodeDevice j = some d ∧ decodeObject j = .device d) ∨
    (decodeMetadataObj j = none ∧ decodeNode j = none ∧ decodeDevice j = none ∧
      decodeObject j = .value j) := by
  cases hm : decodeMetadataObj j with
  | some m => exact Or.inl ⟨m, rfl, by simp [decodeObject, hm]⟩
  | none =>
    cases hn : decodeNode j with
    | some n => exact Or.inr (Or.inl ⟨rfl, n, rfl, by simp [decodeObject, hm, hn]⟩)
    | none =>
      cases hd : decodeDevice j with
      | some d =>
        exact Or.inr (Or.inr (Or.inl ⟨rfl, rfl, d, rfl, by simp [decodeObject, hm, hn, hd]⟩))
      | none => exact Or.inr (Or.inr (Or.inr ⟨rfl, rfl, rfl, by simp [decodeObject, hm, hn, hd]⟩))

/-! ## C1: first-match resolution order -/

/-- The decoy for the C1 counterexample: an entry of Device shape whose
`id` matches the node's `device.id` but whose `type` is not the device
interface identifier. -/
def c1Decoy : PipeWireInterfaceDevice :=
  { id := 3
    typ := "Not:A:Device"
    info := { params := { route := [
      { index := 0
        direction := "Output"
        props := { mute := false, volume_base := 0, channel_volumes := [1] } } ] } } }

/-- The route `parse_dump` actually selects in the C1 counterexample. -/
def c1RealRoute : DeviceRoute :=
  { index := 5
    direction := "Output"
    props := { mute := true, volume_base := 0, channel_volumes := [1/4] } }

/-- The C1 counterexample dump: the decoy Device (matching id, wrong
type) precedes the real device. -/
def c1objs : List PipeWireObject :=
  [ .metadata { typ := "PipeWire:Interface:Metadata"
                metadata := [ { key := "default.audio.sink"
                                value := .name { name := "alsa_output.example" } } ] }
  , .node (fixtureNode 3)
  , .device c1Decoy
  , .device { id := 3
              typ := "PipeWire:Interface:Device"
              info := { params := { route := [c1RealRoute] } } } ]

/-- C1 (counterexample): the first Device object whose `id` equals the
node's `device.id` is the decoy, but `parse_dump` selects the later
device's route (index 5), which the decoy does not contain: the claim's
device-selection rule omits the `type == "PipeWire:Interface:Device"`
check that the code applies. -/
theorem c1_counterexample :
    parse_dump c1objs = .ok (fixtureNode 3, c1RealRoute) ∧
    c1objs.findSome? (fun o => match o with
      | .device d => if d.id = (fixtureNode 3).info.props.device_id then some d else none
      | _ => none) = some c1Decoy ∧
    ∀ r ∈ c1Decoy.info.params.route, ¬ r.index = c1RealRoute.index :=
  ⟨rfl, rfl, by decide⟩

/-- C1 (amended): a successful resolution picks, in input order with no
reordering: the first metadata-borne sink name; the first Node object of
the node interface type named after it; the first Device object of the
device interface type (the type check included) with the node's
`device.id`; that device's first route with direction "Output"; and the
route's channelVolumes are non-empty. -/
theorem c1_first_match_resolution (objs : List PipeWireObject)
    (node : PipeWireInterfaceNode) (route : DeviceRoute)
    (h : parse_dump objs = .ok (node, route)) :
    ∃ sink, findDefaultSink objs = some sink ∧
      (∃ l₁ l₂, objs = l₁ ++ .node node :: l₂ ∧
        node.typ = "PipeWire:Interface:Node" ∧ node.info.props.node_name = sink ∧
        ∀ x ∈ l₁, nodeOf sink x = none) ∧
      ∃ dev, (∃ l₃ l₄, objs = l₃ ++ .device dev :: l₄ ∧
          dev.typ = "PipeWire:Interface:Device" ∧ dev.id = node.info.props.device_id ∧
          ∀ x ∈ l₃, deviceOf node.info.props.device_id x = none) ∧
        (∃ r₁ r₂, dev.info.params.route = r₁ ++ route :: r₂ ∧
          route.direction = "Output" ∧ ∀ r ∈ r₁, ¬ r.direction = "Output") ∧
        ¬ route.props.channel_volumes = [] := by
  simp only [parse_dump] at h
  split at h
  · exact Except.noConfusion h
  next sink hs =>
    split at h
    · exact Except.noConfusion h
    next n hn =>
      split at h
      · exact Except.noConfusion h
      next dev hd =>
        split at h
        · exact Except.noConfusion h
        next r hr =>
          split at h
          · exact Except.noConfusion h
          next hcv =>
            injection h with h
            rw [Prod.mk.injEq] at h
            obtain ⟨hn2, hr2⟩ := h
            subst hn2
            subst hr2
            refine ⟨sink, hs, ?_, dev, ?_, ?_, ?_⟩
            · obtain ⟨l₁, a, l₂, hl, hfa, hnone⟩ :=
                (findSome?_eq_some_iff_first (nodeOf sink) objs n).mp hn
              obtain ⟨ha, h1, h2⟩ := (nodeOf_eq_some_iff sink a n).mp hfa
              subst ha
              exact ⟨l₁, l₂, hl, h1, h2, hnone⟩
            · obtain ⟨l₃, a, l₄, hl, hfa, hnone⟩ :=
                (findSome?_eq_some_iff_first (deviceOf n.info.props.device_id) objs dev).mp hd
              obtain ⟨ha, h1, h2⟩ :=
                (deviceOf_eq_some_iff n.info.props.device_id a dev).mp hfa
              subst ha
              exact ⟨l₃, l₄, hl, h1, h2, hnone⟩
            · obtain ⟨hp, r₁, r₂, hl, hprev⟩ := List.find?_eq_some.mp hr
              refine ⟨r₁, r₂, hl, by simpa using hp, ?_⟩
              intro x hx
              have := hprev x hx
              simpa using this
            · intro he
              rw [he] at hcv
              exact hcv rfl

/-- C1 witness: the first-match decomposition at the round-trip fixture. -/
theorem c1_witness :
    ∃ sink, findDefaultSink (fixtureDump 3) = some sink ∧
      (∃ l₁ l₂, fixtureDump 3 = l₁ ++ .node (fixtureNode 3) :: l₂ ∧
        (fixtureNode 3).typ = "PipeWire:Interface:Node" ∧
        (fixtureNode 3).info.props.node_name = sink ∧
        ∀ x ∈ l₁, nodeOf sink x = none) ∧
      ∃ dev, (∃ l₃ l₄, fixtureDump 3 = l₃ ++ .device dev :: l₄ ∧
          dev.typ = "PipeWire:Interface:Device" ∧
          dev.id = (fixtureNode 3).info.props.device_id ∧
          ∀ x ∈ l₃, deviceOf (fixtureNode 3).info.props.device_id x = none) ∧
        (∃ r₁ r₂, dev.info.params.route = r₁ ++ fixtureRoute :: r₂ ∧
          fixtureRoute.direction = "Output" ∧ ∀ r ∈ r₁, ¬ r.direction = "Output") ∧
        ¬ fixtureRoute.props.channel_volumes = [] :=
  c1_first_match_resolution (fixtureDump 3) (fixtureNode 3) fixtureRoute rfl

end PwVolume
